import Mathlib

/-!
Verification development for the tracker data processor
(`services/tracker_processor.py` and `services/file_processor.py`).

The processing pipeline is embedded shallowly:
raw rows → field mapper (`transformRecord`) → derivation
(`calculateDerivedFields`) → risk classifier (`calculateGradeStatus`) →
summary rendering (`createSummaryTab`).  Machine integers are modelled as
`Int` (Python integers are unbounded), fallible computations as `Except`,
and string operations over `List Char`.
-/

namespace Tracker

/-! ### Python string primitives -/

/-- Python whitespace characters recognised by `str.strip` / `str.split`. -/
def isPySpace (c : Char) : Bool :=
  c = ' ' || c = '\t' || c = '\n' || c = '\x0d' || c = '\x0b' || c = '\x0c'

/-- Substring test on character lists: Python's `needle in hay`. -/
def subList (needle : List Char) : List Char → Bool
  | [] => needle.isEmpty
  | c :: rest => needle.isPrefixOf (c :: rest) || subList needle rest

/-- Python's `needle in hay` on strings. -/
def containsStr (hay needle : String) : Bool :=
  subList needle.data hay.data

/-- Python's `str.lower` (ASCII range; all strings in this program are ASCII
apart from fixed emoji, which `lower` leaves unchanged). -/
def toLowerStr (s : String) : String :=
  String.mk (s.data.map Char.toLower)

/-- Python's `str.strip()` with no argument. -/
def pyStrip (s : String) : String :=
  String.mk (((s.data.dropWhile isPySpace).reverse.dropWhile isPySpace).reverse)

/-- Worker for `pyReplace`; the fuel is an upper bound on the number of
steps (one character is consumed per step). -/
def replaceAux (pat rep : List Char) : Nat → List Char → List Char
  | _, [] => []
  | 0, l => l
  | fuel + 1, c :: rest =>
      if pat.isPrefixOf (c :: rest) then
        rep ++ replaceAux pat rep fuel (List.drop pat.length (c :: rest))
      else
        c :: replaceAux pat rep fuel rest

/-- Python's `str.replace` for a non-empty pattern (the only call site uses
the fixed pattern `"Week "`): replaces non-overlapping occurrences left to
right. -/
def pyReplace (s pat rep : String) : String :=
  if pat.data = [] then s
  else String.mk (replaceAux pat.data rep.data s.data.length s.data)

/-- Value of a non-empty all-digit token, as used by Python `int()`. -/
def digitsVal? (cs : List Char) : Option Nat :=
  if cs = [] then none
  else if cs.all Char.isDigit then
    some (cs.foldl (fun a c => 10 * a + (c.toNat - 48)) 0)
  else none

/-- Python's `int(s)` on a decimal string: surrounding whitespace is
stripped, an optional sign is allowed, then a non-empty digit run.
Returns `none` where Python raises `ValueError`. -/
def pyInt? (s : String) : Option Int :=
  match (pyStrip s).data with
  | '+' :: rest => (digitsVal? rest).map Int.ofNat
  | '-' :: rest => (digitsVal? rest).map (fun n => -(n : Int))
  | cs => (digitsVal? cs).map Int.ofNat

/-- Worker for `pySplitWs`: accumulates the current token in reverse. -/
def splitWsAux : List Char → List Char → List (List Char)
  | [], acc => if acc.isEmpty then [] else [acc.reverse]
  | c :: rest, acc =>
      if isPySpace c then
        if acc.isEmpty then splitWsAux rest []
        else acc.reverse :: splitWsAux rest []
      else splitWsAux rest (c :: acc)

/-- Python's `str.split()` with no argument: split on whitespace runs,
discarding empty tokens. -/
def pySplitWs (s : String) : List String :=
  (splitWsAux s.data []).map String.mk

/-! ### Data model

`StudentRecord` from `tracker_processor.py`, restricted to the fields the
pipeline reads or writes (fields never touched by the mapper, derivation,
classifier or summary renderer are omitted; they stay at their dataclass
defaults throughout).  Defaults are the dataclass defaults. -/

structure StudentRecord where
  student_id : String := ""
  name : String := ""
  member_id : String := ""
  week : Int := 0
  submission_date : String := ""
  wed_submitted : Bool := false
  sun_submitted : Bool := false
  current_phase : String := ""
  contribution_num : Int := 1
  weeks_remaining : Int := 8
  timeline_type : String := "Standard"
  readme_link : String := ""
  issue_url : String := ""
  fork_url : String := ""
  mr_url : String := ""
  why_chosen_complete : Bool := false
  reproduction_complete : Bool := false
  solution_complete : Bool := false
  implementation_complete : Bool := false
  testing_complete : Bool := false
  feedback_complete : Bool := false
  deliverables_expected : Int := 0
  deliverables_complete : Int := 0
  days_since_commit : Int := 0
  mr_status : String := ""
  progress_summary : String := ""
  next_week_plan : String := ""
  blocked : Bool := false
  blocker_desc : String := ""
  grade_status : String := "🟢 ON TRACK"
  intervention_type : String := ""
  cam_notes : String := ""
  deriving Repr, DecidableEq

/-- A parsed CSV row: association list from column header to cell value
(`csv.DictReader` yields each row as a dict with unique keys). -/
def Row := List (String × String)

/-- Dict lookup `csv_col in row` / `row[csv_col]`. -/
def lookupRow (row : Row) (k : String) : Option String :=
  match row with
  | [] => none
  | (k', v) :: rest => if k' = k then some v else lookupRow rest k

/-! ### Field mapper (`_transform_records`) -/

/-- Week decoder: `value.replace("Week ", "").strip()` then `int(...)`,
defaulting to 0 on any parse failure. -/
def decodeWeek (v : String) : Int :=
  match pyInt? (pyStrip (pyReplace v "Week " "")) with
  | some n => n
  | none => 0

/-- Contribution-number decoder, transcribed branch for branch from the
`try/except` in `_transform_records`: if the value contains
`"Contribution"`, `int(value.split()[-1])`; `IndexError`/`ValueError` are
caught and set 1.  The `elif "No Contribution"` branch is kept as written
even though `"Contribution"` is a substring of `"No Contribution"`, which
makes it unreachable.  `cur` is the current field value (the dataclass
default 1), kept when no branch assigns. -/
def decodeContribution (v : String) (cur : Int) : Int :=
  if containsStr v "Contribution" then
    match (pySplitWs v).getLast? with
    | some tok =>
        match pyInt? tok with
        | some n => n
        | none => 1
    | none => 1
  else if containsStr v "No Contribution" then 0
  else cur

/-- Phase normalizer `_normalize_phase`: lowercase, then first match in the fixed order. -/
def normalizePhase (phase : String) : String :=
  let p := toLowerStr phase
  if containsStr p "1" || containsStr p "selection" then
    "Phase 1: Issue Selection"
  else if containsStr p "2" || containsStr p "reproduction" then
    "Phase 2: Reproduction & Planning"
  else if containsStr p "3" || containsStr p "implementation" then
    "Phase 3: Implementation"
  else if containsStr p "4" || containsStr p "submission" then
    "Phase 4: Submission & Iteration"
  else p

/-- Phase ordinal `_get_phase_number`: first digit found in the fixed order 1→4, else 0. -/
def getPhaseNumber (s : String) : Nat :=
  if containsStr s "1" then 1
  else if containsStr s "2" then 2
  else if containsStr s "3" then 3
  else if containsStr s "4" then 4
  else 0

/-- The `CSV_COLUMN_MAP` loop in `_transform_records`, written as a record
literal: the loop walks `CSV_COLUMN_MAP` once and each target field is
assigned by at most one column, so its denotation is this literal (absent
columns leave the dataclass default, matching the `if csv_col in row`
guard). -/
def transformRecord (row : Row) : StudentRecord :=
  { student_id := (lookupRow row "#").getD ""
    name := (lookupRow row "What's your name?").getD ""
    member_id := (lookupRow row "What's your Member ID?").getD ""
    week :=
      match lookupRow row "Which week is this?" with
      | some v => decodeWeek v
      | none => 0
    contribution_num :=
      match lookupRow row "Which contribution are you reporting on?" with
      | some v => decodeContribution v 1
      | none => 1
    readme_link := (lookupRow row "Link to your contribution README").getD ""
    -- "_submission_type": `if "Wednesday" in value ... elif "Sunday" in value`
    wed_submitted :=
      match lookupRow row "Which submission are you completing?" with
      | some v => containsStr v "Wednesday"
      | none => false
    sun_submitted :=
      match lookupRow row "Which submission are you completing?" with
      | some v => !containsStr v "Wednesday" && containsStr v "Sunday"
      | none => false
    current_phase :=
      match lookupRow row "What phase are you currently in?" with
      | some v => normalizePhase v
      | none => ""
    issue_url := (lookupRow row "Direct link to your GitLab issue").getD ""
    why_chosen_complete :=
      match lookupRow row "Have you completed the \"Why I chose this issue\" section in your README?" with
      | some v => v = "1"
      | none => false
    fork_url := (lookupRow row "Direct link to your GitLab fork").getD ""
    reproduction_complete :=
      match lookupRow row "Have you documented your reproduction process in your README?" with
      | some v => v = "1"
      | none => false
    solution_complete :=
      match lookupRow row "Have you documented your solution approach in your README?" with
      | some v => v = "1"
      | none => false
    implementation_complete :=
      match lookupRow row "Have you documented your implementation progress in your README?" with
      | some v => v = "1"
      | none => false
    testing_complete :=
      match lookupRow row "Have you documented your testing strategy in your README?" with
      | some v => v = "1"
      | none => false
    mr_url := (lookupRow row "Direct link to your Merge Request (MR) or Pull Request (PR)").getD ""
    feedback_complete :=
      match lookupRow row "Have you documented any maintainer feedback in your README?" with
      | some v => v = "1"
      | none => false
    progress_summary := (lookupRow row "Briefly summarize what you accomplished this week").getD ""
    next_week_plan := (lookupRow row "What's your plan for next week?").getD ""
    blocked :=
      match lookupRow row "Are you currently blocked or stuck?" with
      | some v => v = "1"
      | none => false
    blocker_desc := (lookupRow row "Describe what you're blocked on").getD ""
    submission_date := (lookupRow row "Submit Date (UTC)").getD ""
    -- "_tags": `if "AI Generated" in str(value)`
    cam_notes :=
      match lookupRow row "Tags" with
      | some v => if containsStr v "AI Generated" then "[AI Generated Response]" else ""
      | none => "" }

/-- The `_transform_records` pass over the whole row set. -/
def transformRecords (rows : List Row) : List StudentRecord :=
  rows.map transformRecord

/-! ### Derivation engine (`_calculate_derived_fields`) -/

/-- Python treats `True` as 1 inside `sum`. -/
def boolInt (b : Bool) : Int := if b then 1 else 0

/-- The `_calculate_derived_fields` pass on one record: deliverables expected
(stepped by phase ordinal; an unrecognized phase leaves the incoming
value), deliverables complete (sum of the six flags), weeks remaining,
and the timeline type decision list. -/
def calculateDerivedFields (s : StudentRecord) : StudentRecord :=
  let p := getPhaseNumber s.current_phase
  let e1 : Int := if p ≥ 1 then 1 else s.deliverables_expected
  let e2 : Int := if p ≥ 2 then e1 + 2 else e1
  let e3 : Int := if p ≥ 3 then e2 + 2 else e2
  let e4 : Int := if p ≥ 4 then e3 + 1 else e3
  let complete : Int :=
    boolInt s.why_chosen_complete + boolInt s.reproduction_complete +
    boolInt s.solution_complete + boolInt s.implementation_complete +
    boolInt s.testing_complete + boolInt s.feedback_complete
  let wr : Int := max 0 (8 - s.week)
  let tt : String :=
    if wr < 3 ∧ p < 3 then "Compressed"
    else if wr < 2 ∧ p < 4 then "Critical"
    else "Standard"
  { s with
    deliverables_expected := e4
    deliverables_complete := complete
    weeks_remaining := wr
    timeline_type := tt }

/-- The derivation pass over the whole record list. -/
def deriveAll (students : List StudentRecord) : List StudentRecord :=
  students.map calculateDerivedFields

/-! ### Risk classifier (`_calculate_grade_status`) -/

/-- The AT RISK `if/elif` chain: returns `(at_risk, intervention)`. -/
def atRiskRule (s : StudentRecord) (p : Nat) : Bool × String :=
  if ¬s.wed_submitted ∧ ¬s.sun_submitted then (true, "MISSING_BOTH")
  else if s.week ≥ 6 ∧ p ≤ 2 then (true, "PHASE_CRITICAL")
  else if s.blocked ∧ s.blocker_desc ≠ "" then (true, "STALLED")
  else (false, "")

/-- The FLAGGED `if/elif` chain, evaluated only when not at risk; the
final `else` keeps the incoming intervention string. -/
def flaggedRule (s : StudentRecord) (intervention : String) : Bool × String :=
  if s.deliverables_complete < s.deliverables_expected then (true, "MISSING_DELIVERABLES")
  else if s.days_since_commit > 7 then (true, "NO_ACTIVITY")
  else if s.timeline_type = "Compressed" then (true, "TIMELINE_COMPRESSED")
  else (false, intervention)

/-- The `_calculate_grade_status` pass on one record. -/
def calculateGradeStatus (s : StudentRecord) : StudentRecord :=
  let p := getPhaseNumber s.current_phase
  let ar := atRiskRule s p
  let fl := if ¬ar.1 then flaggedRule s ar.2 else (false, ar.2)
  let status : String :=
    if ar.1 then "🔴 AT RISK"
    else if fl.1 then "🟡 FLAGGED"
    else "🟢 ON TRACK"
  { s with grade_status := status, intervention_type := if ar.1 then ar.2 else fl.2 }

/-- The classification pass over the whole record list. -/
def gradeAll (students : List StudentRecord) : List StudentRecord :=
  students.map calculateGradeStatus

/-- The full mapper → derive → classify pipeline on one row, as `process`
composes the three passes (each pass is per-record). -/
def pipelineRecord (row : Row) : StudentRecord :=
  calculateGradeStatus (calculateDerivedFields (transformRecord row))

/-! ### Summary dashboard (`_create_summary_tab`)

Only the value-bearing cells are modelled; styling, merges and cell
coordinates carry no data.  Python float division raises
`ZeroDivisionError` on a zero divisor, so a division that may raise lives
in `Except`; every percentage cell in the source guards the division with
`if total` and that guard is transcribed as written. -/

/-- Round `num / den` to the nearest integer, ties to even, as `float`
formatting with `:.1f` does (modelled exactly on the rational value). -/
def roundHalfEven (num den : Nat) : Nat :=
  let q := num / den
  let r := num % den
  if 2 * r < den then q
  else if den < 2 * r then q + 1
  else if q % 2 = 0 then q else q + 1

/-- Percentage `count / total * 100` rendered in tenths of a percent; raises
(`Except.error`) exactly when `total = 0`. -/
def pctTenths (count total : Nat) : Except String Nat :=
  if total = 0 then Except.error "ZeroDivisionError: division by zero"
  else Except.ok (roundHalfEven (count * 1000) total)

/-- Format a tenths-of-percent value as `:.1f` does. -/
def fmtTenths (t : Nat) : String :=
  toString (t / 10) ++ "." ++ toString (t % 10)

/-- A status-breakdown cell: `f"{count} ({count/total*100:.1f}%)" if total
else "0"`. -/
def statusCell (count total : Nat) : Except String String :=
  if total ≠ 0 then
    (pctTenths count total).map fun t =>
      toString count ++ " (" ++ fmtTenths t ++ "%)"
  else pure "0"

/-- A submission-rate cell: `f"{count}/{total} ({count/total*100:.1f}%)"
if total else "0"`. -/
def ratioCell (count total : Nat) : Except String String :=
  if total ≠ 0 then
    (pctTenths count total).map fun t =>
      toString count ++ "/" ++ toString total ++ " (" ++ fmtTenths t ++ "%)"
  else pure "0"

/-- Count of records satisfying a predicate (`len([s for s in students if …])`). -/
def countIf (students : List StudentRecord) (f : StudentRecord → Bool) : Nat :=
  (students.filter f).length

/-- Python `max(s.week for s in students) if students else 0`. -/
def currentWeek : List StudentRecord → Int
  | [] => 0
  | s :: rest => rest.foldl (fun m t => max m t.week) s.week

/-- The `_create_summary_tab` layout, as the list of labelled value cells in layout
order.  Each percentage cell goes through `Except`, so an unguarded zero
division would surface as `Except.error`. -/
def createSummaryTab (students : List StudentRecord) : Except String (List (String × String)) := do
  let total := students.length
  let on_track := countIf students (fun s => s.grade_status = "🟢 ON TRACK")
  let flagged := countIf students (fun s => s.grade_status = "🟡 FLAGGED")
  let at_risk := countIf students (fun s => s.grade_status = "🔴 AT RISK")
  let sun_submitted := countIf students (fun s => s.sun_submitted)
  let wed_submitted := countIf students (fun s => s.wed_submitted)
  let phase_count := fun (k : Nat) =>
    countIf students (fun s => getPhaseNumber s.current_phase = k)
  let mr_submitted := countIf students (fun s => s.mr_url ≠ "")
  let mr_merged := countIf students (fun s => containsStr (toLowerStr s.mr_status) "merged")
  let interventions_sent := countIf students (fun s => s.intervention_type ≠ "")
  let onTrackCell ← statusCell on_track total
  let flaggedCell ← statusCell flagged total
  let atRiskCell ← statusCell at_risk total
  let sunCell ← ratioCell sun_submitted total
  let wedCell ← ratioCell wed_submitted total
  let mrSubCell ← statusCell mr_submitted total
  let mrMergedCell ← statusCell mr_merged total
  pure
    [ ("title", "WEEK " ++ toString (currentWeek students) ++ " OVERVIEW")
    , ("Total Students:", toString total)
    , ("🟢 On Track:", onTrackCell)
    , ("🟡 Flagged:", flaggedCell)
    , ("🔴 At Risk:", atRiskCell)
    , ("└─ Sunday:", sunCell)
    , ("└─ Wednesday:", wedCell)
    , ("└─ Phase 1:", toString (phase_count 1) ++ " students")
    , ("└─ Phase 2:", toString (phase_count 2) ++ " students")
    , ("└─ Phase 3:", toString (phase_count 3) ++ " students")
    , ("└─ Phase 4:", toString (phase_count 4) ++ " students")
    , ("MRs Submitted:", mrSubCell)
    , ("MRs Merged:", mrMergedCell)
    , ("Interventions Needed:", toString interventions_sent) ]

/-! ### `process` and `ProcessingResult` -/

/-- The rendered workbook, restricted to the data the claims inspect: the
classified record list behind the four table tabs and the summary cells.
(Cell styling and the xlsx byte serialisation are not modelled; a
workbook value stands for the binary payload.) -/
structure Workbook where
  records : List StudentRecord
  summary : List (String × String)
  deriving Repr, DecidableEq

/-- Result dataclass `ProcessingResult` from `file_processor.py` (defaults are the
dataclass defaults; `output_data` is the workbook payload or `None`). -/
structure ProcessingResult where
  success : Bool
  output_data : Option Workbook := none
  output_filename : Option String := none
  error_message : Option String := none
  rows_processed : Nat := 0
  deriving Repr, DecidableEq

/-- The entry point `TrackerDataProcessor.process` on the parsed row set: the empty-input
check, then transform → derive → classify → build workbook.  (The byte
decoding and CSV parsing that produce `rows` sit outside this model; a
summary-tab error would propagate through the outer `except` into a
failure result, which the `Except` bind mirrors.) -/
def process (rows : List Row) : ProcessingResult :=
  if rows.isEmpty then
    { success := false, error_message := some "CSV file is empty" }
  else
    let students := gradeAll (deriveAll (transformRecords rows))
    match createSummaryTab students with
    | Except.error e =>
        { success := false, error_message := some ("Processing error: " ++ e) }
    | Except.ok summary =>
        { success := true
          output_data := some { records := students, summary := summary }
          output_filename := some "tracker_report.xlsx"
          rows_processed := students.length }

/-! ### Projection lemmas

The derivation and classification passes are record updates; these
definitional lemmas expose the fields the theorems reason about. -/

theorem derived_complete_eq (s : StudentRecord) :
    (calculateDerivedFields s).deliverables_complete =
      boolInt s.why_chosen_complete + boolInt s.reproduction_complete +
      boolInt s.solution_complete + boolInt s.implementation_complete +
      boolInt s.testing_complete + boolInt s.feedback_complete := rfl

theorem derived_weeks_remaining_eq (s : StudentRecord) :
    (calculateDerivedFields s).weeks_remaining = max 0 (8 - s.week) := rfl

theorem derived_timeline_eq (s : StudentRecord) :
    (calculateDerivedFields s).timeline_type =
      (if max 0 (8 - s.week) < 3 ∧ getPhaseNumber s.current_phase < 3 then "Compressed"
       else if max 0 (8 - s.week) < 2 ∧ getPhaseNumber s.current_phase < 4 then "Critical"
       else "Standard") := rfl

theorem boolInt_nonneg (b : Bool) : 0 ≤ boolInt b := by
  cases b <;> simp [boolInt]

theorem boolInt_le_one (b : Bool) : boolInt b ≤ 1 := by
  cases b <;> simp [boolInt]

/-! ### C1 -/

/-- A row whose contribution column is exactly `"No Contribution"`. -/
def noContributionRow : Row :=
  [("Which contribution are you reporting on?", "No Contribution")]

/-- C1: on the input value `"No Contribution"` the field mapper produces
`contribution_num = 1`, not the `0` the specification demands: since
`"Contribution"` is a substring of `"No Contribution"`, the first branch
parses the trailing token `"Contribution"`, `int()` fails, and the
`except` sets 1; the `elif "No Contribution"` branch is unreachable. -/
theorem contribution_no_contribution_is_one :
    (transformRecord noContributionRow).contribution_num = 1 ∧
    (transformRecord noContributionRow).contribution_num ≠ 0 := by
  decide

/-! ### C2 -/

/-- A row with an unclassifiable phase (ordinal 0, so 0 deliverables are
expected) and all six deliverable flags set. -/
def unclampedRow : Row :=
  [ ("What phase are you currently in?", "none of the above")
  , ("Have you completed the \"Why I chose this issue\" section in your README?", "1")
  , ("Have you documented your reproduction process in your README?", "1")
  , ("Have you documented your solution approach in your README?", "1")
  , ("Have you documented your implementation progress in your README?", "1")
  , ("Have you documented your testing strategy in your README?", "1")
  , ("Have you documented any maintainer feedback in your README?", "1") ]

/-- C2 counterexample: after the derivation stage this record has
`deliverables_complete = 6` but `deliverables_expected = 0`, so
`deliverables_complete ≤ deliverables_expected` fails. -/
theorem deliverables_interval_counterexample :
    (calculateDerivedFields (transformRecord unclampedRow)).deliverables_complete = 6 ∧
    (calculateDerivedFields (transformRecord unclampedRow)).deliverables_expected = 0 ∧
    ¬((calculateDerivedFields (transformRecord unclampedRow)).deliverables_complete ≤
        (calculateDerivedFields (transformRecord unclampedRow)).deliverables_expected) := by
  decide

/-- C2 (amended): after the derivation stage `deliverables_complete` lies
in `[0, 6]` for every record; it is not bounded by
`deliverables_expected`. -/
theorem deliverables_complete_bounds (s : StudentRecord) :
    0 ≤ (calculateDerivedFields s).deliverables_complete ∧
    (calculateDerivedFields s).deliverables_complete ≤ 6 := by
  rw [derived_complete_eq]
  have h1 := boolInt_nonneg s.why_chosen_complete
  have h2 := boolInt_nonneg s.reproduction_complete
  have h3 := boolInt_nonneg s.solution_complete
  have h4 := boolInt_nonneg s.implementation_complete
  have h5 := boolInt_nonneg s.testing_complete
  have h6 := boolInt_nonneg s.feedback_complete
  have g1 := boolInt_le_one s.why_chosen_complete
  have g2 := boolInt_le_one s.reproduction_complete
  have g3 := boolInt_le_one s.solution_complete
  have g4 := boolInt_le_one s.implementation_complete
  have g5 := boolInt_le_one s.testing_complete
  have g6 := boolInt_le_one s.feedback_complete
  omega

/-! ### Classifier case analysis -/

theorem calculateGradeStatus_eq (s : StudentRecord) :
    calculateGradeStatus s =
      (let ar := atRiskRule s (getPhaseNumber s.current_phase)
       if ar.1 then { s with grade_status := "🔴 AT RISK", intervention_type := ar.2 }
       else
         let fl := flaggedRule s ar.2
         if fl.1 then { s with grade_status := "🟡 FLAGGED", intervention_type := fl.2 }
         else { s with grade_status := "🟢 ON TRACK", intervention_type := fl.2 }) := by
  by_cases har : (atRiskRule s (getPhaseNumber s.current_phase)).1 = true <;>
    by_cases hfl :
      (flaggedRule s (atRiskRule s (getPhaseNumber s.current_phase)).2).1 = true <;>
    simp [calculateGradeStatus, har, hfl]

/-- The classifier leaves every field except the status and the
intervention reason unchanged. -/
theorem calculateGradeStatus_frame (s : StudentRecord) :
    (calculateGradeStatus s).blocked = s.blocked ∧
    (calculateGradeStatus s).blocker_desc = s.blocker_desc ∧
    (calculateGradeStatus s).timeline_type = s.timeline_type ∧
    (calculateGradeStatus s).week = s.week ∧
    (calculateGradeStatus s).weeks_remaining = s.weeks_remaining ∧
    (calculateGradeStatus s).current_phase = s.current_phase ∧
    (calculateGradeStatus s).deliverables_complete = s.deliverables_complete ∧
    (calculateGradeStatus s).deliverables_expected = s.deliverables_expected := by
  rw [calculateGradeStatus_eq]
  by_cases har : (atRiskRule s (getPhaseNumber s.current_phase)).1 = true <;>
    by_cases hfl :
      (flaggedRule s (atRiskRule s (getPhaseNumber s.current_phase)).2).1 = true <;>
    simp [har, hfl]

/-- Shape of the AT RISK chain: either it fires with one of its three
reasons, or it yields `(false, "")`. -/
theorem atRiskRule_shape (s : StudentRecord) (p : Nat) :
    ((atRiskRule s p).1 = true ∧
      ((atRiskRule s p).2 = "MISSING_BOTH" ∨ (atRiskRule s p).2 = "PHASE_CRITICAL" ∨
        (atRiskRule s p).2 = "STALLED")) ∨
    atRiskRule s p = (false, "") := by
  unfold atRiskRule
  split_ifs <;> simp

/-- Shape of the FLAGGED chain: either it fires with one of its three
reasons, or it passes the incoming reason through with `false`. -/
theorem flaggedRule_shape (s : StudentRecord) (i : String) :
    ((flaggedRule s i).1 = true ∧
      ((flaggedRule s i).2 = "MISSING_DELIVERABLES" ∨ (flaggedRule s i).2 = "NO_ACTIVITY" ∨
        (flaggedRule s i).2 = "TIMELINE_COMPRESSED")) ∨
    flaggedRule s i = (false, i) := by
  unfold flaggedRule
  split_ifs <;> simp

/-! ### C3 -/

/-- A row that is simultaneously stalled (blocked with a description),
missing deliverables, and missing both submissions. -/
def stalledAndMissingRow : Row :=
  [ ("What phase are you currently in?", "Phase 1")
  , ("Are you currently blocked or stuck?", "1")
  , ("Describe what you're blocked on", "x") ]

/-- C3 counterexample: this record satisfies the claim's hypotheses
(blocked, non-empty blocker description, fewer deliverables complete than
expected) yet classifies with reason `MISSING_BOTH`, not `STALLED`: the
AT RISK chain is itself ordered and the missing-both rule fires first. -/
theorem stalled_priority_counterexample :
    (pipelineRecord stalledAndMissingRow).blocked = true ∧
    (pipelineRecord stalledAndMissingRow).blocker_desc ≠ "" ∧
    (pipelineRecord stalledAndMissingRow).deliverables_complete <
      (pipelineRecord stalledAndMissingRow).deliverables_expected ∧
    (pipelineRecord stalledAndMissingRow).intervention_type = "MISSING_BOTH" ∧
    (pipelineRecord stalledAndMissingRow).intervention_type ≠ "STALLED" := by
  decide

/-- C3 (amended): a record with the blocked flag set, a non-empty blocker
description and `deliverables_complete < deliverables_expected` always
classifies AT RISK and never with reason `MISSING_DELIVERABLES`; its
reason is `STALLED` provided the two earlier AT RISK rules do not fire
(at least one submission flag is set, and not both `week ≥ 6` and phase
ordinal `≤ 2`). -/
theorem stalled_priority (s : StudentRecord)
    (hb : s.blocked = true) (hd : s.blocker_desc ≠ "")
    (hlt : s.deliverables_complete < s.deliverables_expected) :
    (calculateGradeStatus s).grade_status = "🔴 AT RISK" ∧
    (calculateGradeStatus s).intervention_type ≠ "MISSING_DELIVERABLES" ∧
    ((s.wed_submitted = true ∨ s.sun_submitted = true) →
      ¬(s.week ≥ 6 ∧ getPhaseNumber s.current_phase ≤ 2) →
      (calculateGradeStatus s).intervention_type = "STALLED") := by
  have har : (atRiskRule s (getPhaseNumber s.current_phase)).1 = true ∧
      ((atRiskRule s (getPhaseNumber s.current_phase)).2 = "MISSING_BOTH" ∨
        (atRiskRule s (getPhaseNumber s.current_phase)).2 = "PHASE_CRITICAL" ∨
        (atRiskRule s (getPhaseNumber s.current_phase)).2 = "STALLED") := by
    rcases atRiskRule_shape s (getPhaseNumber s.current_phase) with h | h
    · exact h
    · exfalso
      have : (atRiskRule s (getPhaseNumber s.current_phase)).1 = false := by rw [h]
      unfold atRiskRule at this
      split_ifs at this <;> simp_all
  refine ⟨?_, ?_, ?_⟩
  · rw [calculateGradeStatus_eq]
    simp [har.1]
  · rw [calculateGradeStatus_eq]
    simp only [har.1, if_true]
    rcases har.2 with h | h | h <;> simp [h]
  · intro hsub hnp
    have c1 : ¬(¬s.wed_submitted = true ∧ ¬s.sun_submitted = true) := by
      rcases hsub with h | h <;> simp [h]
    have hAr : atRiskRule s (getPhaseNumber s.current_phase) = (true, "STALLED") := by
      unfold atRiskRule
      rw [if_neg c1, if_neg hnp, if_pos ⟨hb, hd⟩]
    rw [calculateGradeStatus_eq]
    simp [hAr]

/-- C3 witness record: blocked with description `"x"`, missing a
deliverable, but with the Sunday flag set and week 0. -/
def stalledWitnessRecord : StudentRecord :=
  { blocked := true, blocker_desc := "x"
    deliverables_complete := 0, deliverables_expected := 1
    sun_submitted := true }

theorem stalled_priority_witness :
    (calculateGradeStatus stalledWitnessRecord).grade_status = "🔴 AT RISK" ∧
    (calculateGradeStatus stalledWitnessRecord).intervention_type = "STALLED" := by
  have h := stalled_priority stalledWitnessRecord (by decide) (by decide) (by decide)
  exact ⟨h.1, h.2.2 (Or.inr (by decide)) (by decide)⟩

/-! ### C4 -/

/-- C4: after classification every record carries exactly one of the
three statuses, and the intervention reason is non-empty exactly when the
status is not ON TRACK. -/
theorem grade_status_trichotomy (s : StudentRecord) :
    (((calculateGradeStatus s).grade_status = "🔴 AT RISK" ∧
        (calculateGradeStatus s).grade_status ≠ "🟡 FLAGGED" ∧
        (calculateGradeStatus s).grade_status ≠ "🟢 ON TRACK") ∨
      ((calculateGradeStatus s).grade_status ≠ "🔴 AT RISK" ∧
        (calculateGradeStatus s).grade_status = "🟡 FLAGGED" ∧
        (calculateGradeStatus s).grade_status ≠ "🟢 ON TRACK") ∨
      ((calculateGradeStatus s).grade_status ≠ "🔴 AT RISK" ∧
        (calculateGradeStatus s).grade_status ≠ "🟡 FLAGGED" ∧
        (calculateGradeStatus s).grade_status = "🟢 ON TRACK")) ∧
    ((calculateGradeStatus s).intervention_type ≠ "" ↔
      (calculateGradeStatus s).grade_status ≠ "🟢 ON TRACK") := by
  rw [calculateGradeStatus_eq]
  rcases atRiskRule_shape s (getPhaseNumber s.current_phase) with ⟨h1, h2⟩ | h1
  · simp only [h1, if_true]
    refine ⟨by decide, ?_⟩
    rcases h2 with h | h | h <;> simp only [h] <;> decide
  · have h1' : (atRiskRule s (getPhaseNumber s.current_phase)).1 = false := by rw [h1]
    have h1'' : (atRiskRule s (getPhaseNumber s.current_phase)).2 = "" := by rw [h1]
    simp only [h1', h1'', Bool.false_eq_true, if_false]
    rcases flaggedRule_shape s "" with ⟨h3, h4⟩ | h3
    · simp only [h3, if_true]
      refine ⟨by decide, ?_⟩
      rcases h4 with h | h | h <;> simp only [h] <;> decide
    · have h3' : (flaggedRule s "").1 = false := by rw [h3]
      have h3'' : (flaggedRule s "").2 = "" := by rw [h3]
      simp only [h3', Bool.false_eq_true, if_false]
      refine ⟨by decide, ?_⟩
      simp only [h3'']
      decide

/-! ### C5 -/

/-- The spec's tie-break instance: week 6, phase 2. -/
def tieBreakRow : Row :=
  [("Which week is this?", "Week 6"), ("What phase are you currently in?", "Phase 2")]

/-- C5: the timeline decision list — `Compressed` iff the first condition
holds, `Critical` iff it fails and the second holds, `Standard`
otherwise; and the week-6/phase-2 record (2 weeks remaining) comes out
`Compressed`, not `Critical`. -/
theorem timeline_type_decision :
    (∀ s : StudentRecord,
      ((calculateDerivedFields s).timeline_type = "Compressed" ↔
        ((calculateDerivedFields s).weeks_remaining < 3 ∧
          getPhaseNumber s.current_phase < 3)) ∧
      ((calculateDerivedFields s).timeline_type = "Critical" ↔
        (¬((calculateDerivedFields s).weeks_remaining < 3 ∧
            getPhaseNumber s.current_phase < 3) ∧
          (calculateDerivedFields s).weeks_remaining < 2 ∧
          getPhaseNumber s.current_phase < 4)) ∧
      ((calculateDerivedFields s).timeline_type = "Standard" ↔
        (¬((calculateDerivedFields s).weeks_remaining < 3 ∧
            getPhaseNumber s.current_phase < 3) ∧
          ¬((calculateDerivedFields s).weeks_remaining < 2 ∧
            getPhaseNumber s.current_phase < 4)))) ∧
    ((pipelineRecord tieBreakRow).week = 6 ∧
      getPhaseNumber (pipelineRecord tieBreakRow).current_phase = 2 ∧
      (pipelineRecord tieBreakRow).weeks_remaining = 2 ∧
      (pipelineRecord tieBreakRow).timeline_type = "Compressed" ∧
      (pipelineRecord tieBreakRow).timeline_type ≠ "Critical") := by
  constructor
  · intro s
    rw [derived_timeline_eq, derived_weeks_remaining_eq]
    generalize max 0 (8 - s.week) = W
    generalize getPhaseNumber s.current_phase = p
    by_cases h1 : W < 3 ∧ p < 3 <;> by_cases h2 : W < 2 ∧ p < 4 <;> simp [h1, h2]
  · decide

/-! ### C6 -/

/-- The stepped cumulative sum of the spec (comparison target for C6):
`p≥1`→+1, `p≥2`→+2, `p≥3`→+2, `p≥4`→+1, starting from 0. -/
def deliverablesExpectedSpec (p : Nat) : Int :=
  (if p ≥ 1 then 1 else 0) + (if p ≥ 2 then 2 else 0) +
  (if p ≥ 3 then 2 else 0) + (if p ≥ 4 then 1 else 0)

theorem getPhaseNumber_cases (str : String) :
    getPhaseNumber str = 0 ∨ getPhaseNumber str = 1 ∨ getPhaseNumber str = 2 ∨
    getPhaseNumber str = 3 ∨ getPhaseNumber str = 4 := by
  unfold getPhaseNumber
  split_ifs <;> simp

theorem transform_expected_zero (row : Row) :
    (transformRecord row).deliverables_expected = 0 := rfl

theorem derived_expected_eq (s : StudentRecord) :
    (calculateDerivedFields s).deliverables_expected =
      (let p := getPhaseNumber s.current_phase
       let e1 : Int := if p ≥ 1 then 1 else s.deliverables_expected
       let e2 : Int := if p ≥ 2 then e1 + 2 else e1
       let e3 : Int := if p ≥ 3 then e2 + 2 else e2
       if p ≥ 4 then e3 + 1 else e3) := rfl

/-- On a record whose incoming `deliverables_expected` is 0 (as the field
mapper always produces), the derivation's stepped chain agrees with the
spec's cumulative sum. -/
theorem derived_expected_spec (s : StudentRecord)
    (h0 : s.deliverables_expected = 0) :
    (calculateDerivedFields s).deliverables_expected =
      deliverablesExpectedSpec (getPhaseNumber s.current_phase) := by
  rw [derived_expected_eq]
  rcases getPhaseNumber_cases s.current_phase with h | h | h | h | h <;>
    simp [h, h0, deliverablesExpectedSpec]

/-- C6: for every mapped-and-derived record, `deliverables_expected` is
the cumulative stepped sum of the phase ordinal, its value is one of
`{0, 1, 3, 5, 6}`, a phase-4 record expects all 6, and the stepped sum is
monotone non-decreasing in the ordinal. -/
theorem deliverables_expected_stepped :
    (∀ row : Row,
      (calculateDerivedFields (transformRecord row)).deliverables_expected =
        deliverablesExpectedSpec (getPhaseNumber (transformRecord row).current_phase) ∧
      ((calculateDerivedFields (transformRecord row)).deliverables_expected = 0 ∨
        (calculateDerivedFields (transformRecord row)).deliverables_expected = 1 ∨
        (calculateDerivedFields (transformRecord row)).deliverables_expected = 3 ∨
        (calculateDerivedFields (transformRecord row)).deliverables_expected = 5 ∨
        (calculateDerivedFields (transformRecord row)).deliverables_expected = 6) ∧
      (getPhaseNumber (transformRecord row).current_phase = 4 →
        (calculateDerivedFields (transformRecord row)).deliverables_expected = 6)) ∧
    (∀ p q : Nat, p ≤ q → deliverablesExpectedSpec p ≤ deliverablesExpectedSpec q) := by
  constructor
  · intro row
    have hs := derived_expected_spec (transformRecord row) (transform_expected_zero row)
    refine ⟨hs, ?_, ?_⟩
    · rcases getPhaseNumber_cases (transformRecord row).current_phase with h | h | h | h | h <;>
        rw [hs, h] <;> decide
    · intro h4
      rw [hs, h4]
      decide
  · intro p q hpq
    unfold deliverablesExpectedSpec
    split_ifs <;> omega

/-- A row in phase 4. -/
def phase4Row : Row := [("What phase are you currently in?", "Phase 4")]

theorem deliverables_expected_stepped_witness :
    (calculateDerivedFields (transformRecord phase4Row)).deliverables_expected = 6 ∧
    deliverablesExpectedSpec 2 ≤ deliverablesExpectedSpec 3 :=
  ⟨(deliverables_expected_stepped.1 phase4Row).2.2 (by decide),
   deliverables_expected_stepped.2 2 3 (by decide)⟩

/-! ### C7 -/

/-- C7: an input with zero parsed data rows produces a failure result —
`success` false, no output payload (no workbook is built), and the
human-readable message `"CSV file is empty"`. -/
theorem process_empty_rows :
    (process []).success = false ∧
    (process []).output_data = none ∧
    (process []).error_message = some "CSV file is empty" ∧
    "CSV file is empty" ≠ "" := by
  decide

/-! ### C8 -/

/-- C8: the phase normalizer lowercases its input and returns the first
match of the ordered keyword tests; an input matching none of them passes
through lowercased and resolves to phase ordinal 0 downstream. -/
theorem normalize_phase_first_match (s : String) :
    ((containsStr (toLowerStr s) "1" || containsStr (toLowerStr s) "selection") = true →
      normalizePhase s = "Phase 1: Issue Selection") ∧
    ((containsStr (toLowerStr s) "1" || containsStr (toLowerStr s) "selection") = false →
      (containsStr (toLowerStr s) "2" || containsStr (toLowerStr s) "reproduction") = true →
      normalizePhase s = "Phase 2: Reproduction & Planning") ∧
    ((containsStr (toLowerStr s) "1" || containsStr (toLowerStr s) "selection") = false →
      (containsStr (toLowerStr s) "2" || containsStr (toLowerStr s) "reproduction") = false →
      (containsStr (toLowerStr s) "3" || containsStr (toLowerStr s) "implementation") = true →
      normalizePhase s = "Phase 3: Implementation") ∧
    ((containsStr (toLowerStr s) "1" || containsStr (toLowerStr s) "selection") = false →
      (containsStr (toLowerStr s) "2" || containsStr (toLowerStr s) "reproduction") = false →
      (containsStr (toLowerStr s) "3" || containsStr (toLowerStr s) "implementation") = false →
      (containsStr (toLowerStr s) "4" || containsStr (toLowerStr s) "submission") = true →
      normalizePhase s = "Phase 4: Submission & Iteration") ∧
    ((containsStr (toLowerStr s) "1" || containsStr (toLowerStr s) "selection") = false →
      (containsStr (toLowerStr s) "2" || containsStr (toLowerStr s) "reproduction") = false →
      (containsStr (toLowerStr s) "3" || containsStr (toLowerStr s) "implementation") = false →
      (containsStr (toLowerStr s) "4" || containsStr (toLowerStr s) "submission") = false →
      normalizePhase s = toLowerStr s ∧ getPhaseNumber (normalizePhase s) = 0) := by
  refine ⟨?_, ?_, ?_, ?_, ?_⟩
  · intro h1; simp [normalizePhase, h1]
  · intro h1 h2; simp [normalizePhase, h1, h2]
  · intro h1 h2 h3; simp [normalizePhase, h1, h2, h3]
  · intro h1 h2 h3 h4; simp [normalizePhase, h1, h2, h3, h4]
  · intro h1 h2 h3 h4
    have hn : normalizePhase s = toLowerStr s := by
      simp [normalizePhase, h1, h2, h3, h4]
    refine ⟨hn, ?_⟩
    rw [hn]
    simp only [Bool.or_eq_false_iff] at h1 h2 h3 h4
    simp [getPhaseNumber, h1.1, h2.1, h3.1, h4.1]

theorem normalize_phase_first_match_witness :
    normalizePhase "Phase 3" = "Phase 3: Implementation" ∧
    normalizePhase "TBD" = "tbd" ∧
    getPhaseNumber (normalizePhase "TBD") = 0 := by
  refine ⟨(normalize_phase_first_match "Phase 3").2.2.1 (by decide) (by decide) (by decide),
    ?_, ?_⟩
  · exact ((normalize_phase_first_match "TBD").2.2.2.2
      (by decide) (by decide) (by decide) (by decide)).1
  · exact ((normalize_phase_first_match "TBD").2.2.2.2
      (by decide) (by decide) (by decide) (by decide)).2

/-! ### C9 -/

theorem statusCell_ok (c t : Nat) : ∃ v, statusCell c t = Except.ok v := by
  by_cases h : t = 0
  · subst h
    exact ⟨"0", rfl⟩
  · refine ⟨toString c ++ " (" ++ fmtTenths (roundHalfEven (c * 1000) t) ++ "%)", ?_⟩
    simp [statusCell, pctTenths, h, Except.map]

theorem ratioCell_ok (c t : Nat) : ∃ v, ratioCell c t = Except.ok v := by
  by_cases h : t = 0
  · subst h
    exact ⟨"0", rfl⟩
  · refine ⟨toString c ++ "/" ++ toString t ++ " (" ++
      fmtTenths (roundHalfEven (c * 1000) t) ++ "%)", ?_⟩
    simp [ratioCell, pctTenths, h, Except.map]

/-- Every cell of the dashboard builder is produced under the
`if total` guard, so the builder never surfaces a division error. -/
theorem createSummaryTab_ok (students : List StudentRecord) :
    ∃ cells, createSummaryTab students = Except.ok cells := by
  obtain ⟨v1, h1⟩ := statusCell_ok
    (countIf students fun s => s.grade_status = "🟢 ON TRACK") students.length
  obtain ⟨v2, h2⟩ := statusCell_ok
    (countIf students fun s => s.grade_status = "🟡 FLAGGED") students.length
  obtain ⟨v3, h3⟩ := statusCell_ok
    (countIf students fun s => s.grade_status = "🔴 AT RISK") students.length
  obtain ⟨v4, h4⟩ := ratioCell_ok
    (countIf students fun s => s.sun_submitted) students.length
  obtain ⟨v5, h5⟩ := ratioCell_ok
    (countIf students fun s => s.wed_submitted) students.length
  obtain ⟨v6, h6⟩ := statusCell_ok
    (countIf students fun s => s.mr_url ≠ "") students.length
  obtain ⟨v7, h7⟩ := statusCell_ok
    (countIf students fun s => containsStr (toLowerStr s.mr_status) "merged") students.length
  exact ⟨_, by
    simp only [createSummaryTab]
    rw [h1, h2, h3, h4, h5, h6, h7]
    rfl⟩

theorem foldl_max_init_le (l : List StudentRecord) (a : Int) :
    a ≤ l.foldl (fun m t => max m t.week) a := by
  induction l generalizing a with
  | nil => exact le_refl a
  | cons x xs ih =>
    rw [List.foldl_cons]
    exact le_trans (le_max_left a x.week) (ih (max a x.week))

theorem foldl_max_mem_le (l : List StudentRecord) :
    ∀ (a : Int) (s : StudentRecord), s ∈ l →
      s.week ≤ l.foldl (fun m t => max m t.week) a := by
  induction l with
  | nil => intro a s h; cases h
  | cons x xs ih =>
    intro a s h
    rw [List.foldl_cons]
    rcases List.mem_cons.mp h with rfl | h'
    · exact le_trans (le_max_right a s.week) (foldl_max_init_le xs _)
    · exact ih _ s h'

theorem foldl_max_mem (l : List StudentRecord) :
    ∀ a : Int,
      l.foldl (fun m t => max m t.week) a = a ∨
      l.foldl (fun m t => max m t.week) a ∈ l.map (fun s => s.week) := by
  induction l with
  | nil => intro a; exact Or.inl rfl
  | cons x xs ih =>
    intro a
    rw [List.foldl_cons, List.map_cons]
    rcases ih (max a x.week) with h | h
    · rw [h]
      rcases max_choice a x.week with h' | h'
      · exact Or.inl h'
      · exact Or.inr (by rw [h']; exact List.mem_cons_self _ _)
    · exact Or.inr (List.mem_cons_of_mem _ h)

/-- C9: the dashboard builder never raises a division error (every
percentage cell is guarded by the total-count check); on an empty record
set each percentage cell renders the literal `"0"` and the week label
uses 0; and the current-week label is the maximum `week` over the
records, or 0 for an empty set. -/
theorem summary_tab_guarded :
    (∀ students : List StudentRecord, ∃ cells, createSummaryTab students = Except.ok cells) ∧
    createSummaryTab [] = Except.ok
      [ ("title", "WEEK 0 OVERVIEW")
      , ("Total Students:", "0")
      , ("🟢 On Track:", "0")
      , ("🟡 Flagged:", "0")
      , ("🔴 At Risk:", "0")
      , ("└─ Sunday:", "0")
      , ("└─ Wednesday:", "0")
      , ("└─ Phase 1:", "0 students")
      , ("└─ Phase 2:", "0 students")
      , ("└─ Phase 3:", "0 students")
      , ("└─ Phase 4:", "0 students")
      , ("MRs Submitted:", "0")
      , ("MRs Merged:", "0")
      , ("Interventions Needed:", "0") ] ∧
    currentWeek [] = 0 ∧
    (∀ (students : List StudentRecord) (s : StudentRecord), s ∈ students →
      s.week ≤ currentWeek students) ∧
    (∀ students : List StudentRecord, students ≠ [] →
      currentWeek students ∈ students.map (fun s => s.week)) := by
  refine ⟨createSummaryTab_ok, rfl, rfl, ?_, ?_⟩
  · intro students s h
    cases students with
    | nil => cases h
    | cons x xs =>
      have hc : currentWeek (x :: xs) = xs.foldl (fun m t => max m t.week) x.week := rfl
      rw [hc]
      rcases List.mem_cons.mp h with rfl | h'
      · exact foldl_max_init_le xs s.week
      · exact foldl_max_mem_le xs x.week s h'
  · intro students hne
    cases students with
    | nil => exact absurd rfl hne
    | cons x xs =>
      have hc : currentWeek (x :: xs) = xs.foldl (fun m t => max m t.week) x.week := rfl
      rw [hc, List.map_cons]
      rcases foldl_max_mem xs x.week with h | h
      · rw [h]; exact List.mem_cons_self _ _
      · exact List.mem_cons_of_mem _ h

/-- A singleton record set used to instantiate the quantified parts of
the dashboard theorem. -/
def week5Record : StudentRecord := { week := 5 }

theorem summary_tab_guarded_witness :
    week5Record.week ≤ currentWeek [week5Record] ∧
    currentWeek [week5Record] ∈ [week5Record].map (fun s => s.week) :=
  ⟨summary_tab_guarded.2.2.2.1 [week5Record] week5Record (by simp),
   summary_tab_guarded.2.2.2.2 [week5Record] (by simp)⟩

/-! ### C10 -/

/-- A `STALLED` intervention can only come from the third AT RISK rule,
whose condition requires the blocked flag and a non-empty blocker
description. -/
theorem stalled_requires_blocked (s : StudentRecord)
    (h : (calculateGradeStatus s).intervention_type = "STALLED") :
    s.blocked = true ∧ s.blocker_desc ≠ "" := by
  rw [calculateGradeStatus_eq] at h
  rcases atRiskRule_shape s (getPhaseNumber s.current_phase) with ⟨h1, h2⟩ | h1
  · simp only [h1, if_true] at h
    rcases h2 with hr | hr | hr
    · rw [show (atRiskRule s (getPhaseNumber s.current_phase)).2 = "MISSING_BOTH" from hr] at h
      exact absurd h (by simp)
    · rw [show (atRiskRule s (getPhaseNumber s.current_phase)).2 = "PHASE_CRITICAL" from hr] at h
      exact absurd h (by simp)
    · unfold atRiskRule at hr
      split_ifs at hr with g1 g2 g3
      · simp at hr
      · simp at hr
      · exact ⟨g3.1, g3.2⟩
      · simp at hr
  · have h1' : (atRiskRule s (getPhaseNumber s.current_phase)).1 = false := by rw [h1]
    have h1'' : (atRiskRule s (getPhaseNumber s.current_phase)).2 = "" := by rw [h1]
    simp only [h1', Bool.false_eq_true, if_false] at h
    rcases flaggedRule_shape s (atRiskRule s (getPhaseNumber s.current_phase)).2 with ⟨h3, h4⟩ | h3
    · simp only [h3, if_true] at h
      rcases h4 with hf | hf | hf <;> rw [hf] at h <;> exact absurd h (by simp)
    · rw [h1''] at h3
      simp only [h1'', h3] at h
      exact absurd h (by simp)

/-- C10: the blocked flag decodes true exactly when the blocked column is
the literal string `"1"` (the same decoding as the deliverable flags);
consequently the `STALLED` rule can only fire on rows whose blocked
column is `"1"` and whose blocker description is non-empty. -/
theorem blocked_literal_one :
    (∀ row : Row,
      (transformRecord row).blocked = true ↔
        lookupRow row "Are you currently blocked or stuck?" = some "1") ∧
    (∀ row : Row,
      (pipelineRecord row).intervention_type = "STALLED" →
        lookupRow row "Are you currently blocked or stuck?" = some "1" ∧
        (pipelineRecord row).blocker_desc ≠ "") := by
  have hb : ∀ row : Row,
      (transformRecord row).blocked = true ↔
        lookupRow row "Are you currently blocked or stuck?" = some "1" := by
    intro row
    simp only [transformRecord]
    cases h : lookupRow row "Are you currently blocked or stuck?" with
    | none => simp [h]
    | some v => simp [h]
  refine ⟨hb, ?_⟩
  intro row h
  have hp := stalled_requires_blocked (calculateDerivedFields (transformRecord row)) h
  exact ⟨(hb row).mp hp.1, hp.2⟩

/-- A row on which the `STALLED` rule fires. -/
def stalledRow : Row :=
  [ ("Which week is this?", "Week 3")
  , ("Which submission are you completing?", "Sunday Submission")
  , ("What phase are you currently in?", "Phase 4")
  , ("Are you currently blocked or stuck?", "1")
  , ("Describe what you're blocked on", "stuck on tests") ]

theorem blocked_literal_one_witness :
    lookupRow stalledRow "Are you currently blocked or stuck?" = some "1" ∧
    (pipelineRecord stalledRow).blocker_desc ≠ "" :=
  blocked_literal_one.2 stalledRow (by decide)

end Tracker
